import Mathlib

/-!
Shallow embedding of the memory subsystem of `src/FLAMESEMUV0.cpp`
(class `Memory`: address translation, big-endian 32-bit access to the two
RAM regions MEM1/MEM2 through their aliased windows, and memory-mapped
I/O register dispatch to the video/audio/input peripherals).

Machine integers are modelled as `Nat`; no arithmetic in the embedded
operations can overflow 32 bits (all address comparisons, the mask, and
the byte packing stay below `2 ^ 32`), so no `% 2 ^ 32` reduction is
needed to match the C++ `uint32_t` semantics.  The `SDL_Log` diagnostic
calls carry no state and are not modelled; peripheral hook invocations
are modelled as an explicit output list of `ExtCall` events.
-/

namespace FlamesEmu

/-- Constant `MEM1_SIZE` from the source: 24 MiB. -/
def MEM1_SIZE : Nat := 24 * 1024 * 1024

/-- Constant `MEM2_SIZE` from the source: 64 MiB. -/
def MEM2_SIZE : Nat := 64 * 1024 * 1024

/-- Constant `REG_VIDEO_BG_COLOR` from the source. -/
def REG_VIDEO_BG_COLOR : Nat := 0x0D000000

/-- Constant `REG_INPUT_STATE` from the source. -/
def REG_INPUT_STATE : Nat := 0x0D000004

/-- Constant `REG_AUDIO_FREQ` from the source. -/
def REG_AUDIO_FREQ : Nat := 0x0D000008

/-- A synchronous call made by the bus into a connected peripheral:
`Video::setBackgroundColor`, `Audio::setToneFrequency` (the source passes
`(double)value`; the exact `uint32` argument is recorded), or
`Input::getButtonState`. -/
inductive ExtCall where
  | setBackgroundColor (value : Nat)
  | setToneFrequency (value : Nat)
  | getButtonState
deriving DecidableEq

/-- State of the `Memory` class: the two backing byte vectors (modelled as
functions from offset to byte), the two stored register values, and the
peripheral pointers.  `video`/`audio` record only whether the pointer is
non-null; `input` additionally carries the button state the connected
`Input` object would report (`some bs` = connected, `none` = null). -/
structure Memory where
  mem1 : Nat → Nat
  mem2 : Nat → Nat
  videoBgColor : Nat
  audioFreqValue : Nat
  video : Bool
  audio : Bool
  input : Option Nat

/-- The `Memory()` constructor: zeroed RAM, zero register values, null
peripheral pointers. -/
def Memory.init : Memory :=
  { mem1 := fun _ => 0
    mem2 := fun _ => 0
    videoBgColor := 0
    audioFreqValue := 0
    video := false
    audio := false
    input := none }

/-- Method `Memory::connectVideo` (the argument records nullness of the pointer). -/
def connectVideo (m : Memory) (v : Bool) : Memory := { m with video := v }

/-- Method `Memory::connectAudio`. -/
def connectAudio (m : Memory) (a : Bool) : Memory := { m with audio := a }

/-- Method `Memory::connectInput` (`some bs` = a connected `Input` whose
`getButtonState()` returns `bs`). -/
def connectInput (m : Memory) (i : Option Nat) : Memory := { m with input := i }

/-- The MEM1 window test of `read32`/`write32`:
`(address >= 0x80000000 && address < 0x80000000 + MEM1_SIZE) ||
 (address >= 0xC0000000 && address < 0xC0000000 + MEM1_SIZE)`. -/
def inMem1Window (address : Nat) : Prop :=
  (0x80000000 ≤ address ∧ address < 0x80000000 + MEM1_SIZE) ∨
  (0xC0000000 ≤ address ∧ address < 0xC0000000 + MEM1_SIZE)

instance (address : Nat) : Decidable (inMem1Window address) := by
  unfold inMem1Window; infer_instance

/-- The MEM2 window test of `read32`/`write32`:
`(address >= 0x90000000 && address < 0x90000000 + MEM2_SIZE) ||
 (address >= 0xD0000000 && address < 0xD0000000 + MEM2_SIZE)`. -/
def inMem2Window (address : Nat) : Prop :=
  (0x90000000 ≤ address ∧ address < 0x90000000 + MEM2_SIZE) ∨
  (0xD0000000 ≤ address ∧ address < 0xD0000000 + MEM2_SIZE)

instance (address : Nat) : Decidable (inMem2Window address) := by
  unfold inMem2Window; infer_instance

/-- The four-byte big-endian load performed by the in-bounds RAM branch of
`read32`: `b0..b3` are read at `offset..offset+3` of the backing store `g`
and combined as `(b0 << 24) | (b1 << 16) | (b2 << 8) | b3`. -/
def loadBE (g : Nat → Nat) (offset : Nat) : Nat :=
  (g offset <<< 24) ||| (g (offset + 1) <<< 16) ||| (g (offset + 2) <<< 8) |||
    g (offset + 3)

/-- The four byte stores performed by the in-bounds RAM branch of `write32`:
`g[offset] = (value >> 24) & 0xFF; ...; g[offset+3] = value & 0xFF`,
most-significant byte first. -/
def storeBE (g : Nat → Nat) (offset value : Nat) : Nat → Nat := fun i =>
  if i = offset then (value >>> 24) &&& 0xFF
  else if i = offset + 1 then (value >>> 16) &&& 0xFF
  else if i = offset + 2 then (value >>> 8) &&& 0xFF
  else if i = offset + 3 then value &&& 0xFF
  else g i

/-- Method `Memory::read32`.  Returns the (unchanged) state, the value returned by
the C++ function, and the list of peripheral calls it made. -/
def read32 (m : Memory) (address : Nat) : Memory × Nat × List ExtCall :=
  if inMem1Window address then
    if (address &&& (MEM1_SIZE - 1)) + 3 < MEM1_SIZE then
      (m, loadBE m.mem1 (address &&& (MEM1_SIZE - 1)), [])
    else
      (m, 0, [])
  else if inMem2Window address then
    if (address &&& (MEM2_SIZE - 1)) + 3 < MEM2_SIZE then
      (m, loadBE m.mem2 (address &&& (MEM2_SIZE - 1)), [])
    else
      (m, 0, [])
  else
    if address = REG_VIDEO_BG_COLOR then
      (m, m.videoBgColor, [])
    else if address = REG_INPUT_STATE then
      match m.input with
      | some buttons => (m, buttons, [ExtCall.getButtonState])
      | none => (m, 0, [])
    else if address = REG_AUDIO_FREQ then
      (m, m.audioFreqValue, [])
    else
      (m, 0, [])

/-- Method `Memory::write32`.  Returns the new state and the list of peripheral
calls made. -/
def write32 (m : Memory) (address value : Nat) : Memory × List ExtCall :=
  if inMem1Window address then
    if (address &&& (MEM1_SIZE - 1)) + 3 < MEM1_SIZE then
      ({ m with mem1 := storeBE m.mem1 (address &&& (MEM1_SIZE - 1)) value }, [])
    else
      (m, [])
  else if inMem2Window address then
    if (address &&& (MEM2_SIZE - 1)) + 3 < MEM2_SIZE then
      ({ m with mem2 := storeBE m.mem2 (address &&& (MEM2_SIZE - 1)) value }, [])
    else
      (m, [])
  else
    if address = REG_VIDEO_BG_COLOR then
      ({ m with videoBgColor := value },
        if m.video then [ExtCall.setBackgroundColor value] else [])
    else if address = REG_INPUT_STATE then
      (m, [])
    else if address = REG_AUDIO_FREQ then
      ({ m with audioFreqValue := value },
        if m.audio then [ExtCall.setToneFrequency value] else [])
    else
      (m, [])

end FlamesEmu

namespace FlamesEmu

theorem or_eq_add {a b : Nat} (i : Nat) (ha : 2 ^ i ∣ a) (hb : b < 2 ^ i) :
    a ||| b = a + b := by
  obtain ⟨c, rfl⟩ := ha
  exact (Nat.mul_add_lt_is_or hb c).symm

theorem and_mask1 (x : Nat) :
    x &&& (MEM1_SIZE - 1) = 16777216 * (x / 16777216 % 2) + x % 8388608 := by
  have h1 : (MEM1_SIZE - 1 : Nat) = 2 ^ 24 ||| (2 ^ 23 - 1) := by decide
  rw [h1, Nat.and_or_distrib_left, Nat.and_two_pow, Nat.toNat_testBit,
    Nat.and_pow_two_sub_one_eq_mod]
  rw [or_eq_add 24 (dvd_mul_left _ _)
    (lt_trans (Nat.mod_lt x (by norm_num)) (by norm_num))]
  norm_num
  omega

theorem and_mask2 (x : Nat) : x &&& (MEM2_SIZE - 1) = x % 67108864 := by
  have h1 : (MEM2_SIZE - 1 : Nat) = 2 ^ 26 - 1 := by decide
  rw [h1, Nat.and_pow_two_sub_one_eq_mod]

theorem pack_unpack (v : Nat) (hv : v < 2 ^ 32) :
    (((v >>> 24) &&& 0xFF) <<< 24) ||| (((v >>> 16) &&& 0xFF) <<< 16) |||
      (((v >>> 8) &&& 0xFF) <<< 8) ||| (v &&& 0xFF) = v := by
  have hm : ∀ x : Nat, x &&& 0xFF = x % 256 := fun x => by
    have h := Nat.and_pow_two_sub_one_eq_mod x 8
    norm_num at h
    exact h
  have hs : ∀ x n : Nat, x >>> n = x / 2 ^ n := fun x n =>
    Nat.shiftRight_eq_div_pow x n
  have hl : ∀ x n : Nat, x <<< n = x * 2 ^ n := fun x n => Nat.shiftLeft_eq x n
  have d1 : (2 : Nat) ^ 24 ∣ ((v >>> 24) &&& 0xFF) <<< 24 := by
    rw [hl]; exact dvd_mul_left _ _
  have b1 : ((v >>> 16) &&& 0xFF) <<< 16 < 2 ^ 24 := by
    rw [hl, hm]; norm_num; omega
  have h1 := or_eq_add 24 d1 b1
  have d2 : (2 : Nat) ^ 16 ∣
      (((v >>> 24) &&& 0xFF) <<< 24) + (((v >>> 16) &&& 0xFF) <<< 16) := by
    refine dvd_add ?_ ?_ <;> rw [hl]
    · exact Dvd.dvd.mul_left (by norm_num) _
    · exact dvd_mul_left _ _
  have b2 : ((v >>> 8) &&& 0xFF) <<< 8 < 2 ^ 16 := by
    rw [hl, hm]; norm_num; omega
  have h2 := or_eq_add 16 d2 b2
  have d3 : (2 : Nat) ^ 8 ∣
      ((((v >>> 24) &&& 0xFF) <<< 24) + (((v >>> 16) &&& 0xFF) <<< 16)) +
        (((v >>> 8) &&& 0xFF) <<< 8) := by
    refine dvd_add (dvd_add ?_ ?_) ?_ <;> rw [hl]
    · exact Dvd.dvd.mul_left (by norm_num) _
    · exact Dvd.dvd.mul_left (by norm_num) _
    · exact dvd_mul_left _ _
  have b3 : v &&& 0xFF < 2 ^ 8 := by
    rw [hm]; exact Nat.mod_lt _ (by norm_num)
  have h3 := or_eq_add 8 d3 b3
  rw [h1, h2, h3]
  rw [hm, hm, hm, hm, hs, hs, hs, hl, hl, hl]
  norm_num
  omega

end FlamesEmu

namespace FlamesEmu

theorem storeBE_at0 (g : Nat → Nat) (off v : Nat) :
    storeBE g off v off = (v >>> 24) &&& 0xFF := by
  unfold storeBE; rw [if_pos rfl]

theorem storeBE_at1 (g : Nat → Nat) (off v : Nat) :
    storeBE g off v (off + 1) = (v >>> 16) &&& 0xFF := by
  unfold storeBE; rw [if_neg (by omega), if_pos rfl]

theorem storeBE_at2 (g : Nat → Nat) (off v : Nat) :
    storeBE g off v (off + 2) = (v >>> 8) &&& 0xFF := by
  unfold storeBE; rw [if_neg (by omega), if_neg (by omega), if_pos rfl]

theorem storeBE_at3 (g : Nat → Nat) (off v : Nat) :
    storeBE g off v (off + 3) = v &&& 0xFF := by
  unfold storeBE
  rw [if_neg (by omega), if_neg (by omega), if_neg (by omega), if_pos rfl]

theorem storeBE_other (g : Nat → Nat) (off v i : Nat)
    (h : i < off ∨ off + 3 < i) : storeBE g off v i = g i := by
  unfold storeBE
  rw [if_neg (by omega), if_neg (by omega), if_neg (by omega), if_neg (by omega)]

theorem loadBE_storeBE (g : Nat → Nat) (off v : Nat) (hv : v < 2 ^ 32) :
    loadBE (storeBE g off v) off = v := by
  unfold loadBE
  rw [storeBE_at0, storeBE_at1, storeBE_at2, storeBE_at3]
  exact pack_unpack v hv

theorem read32_mem1_in (m : Memory) (address : Nat) (h : inMem1Window address)
    (hg : (address &&& (MEM1_SIZE - 1)) + 3 < MEM1_SIZE) :
    read32 m address = (m, loadBE m.mem1 (address &&& (MEM1_SIZE - 1)), []) := by
  unfold read32; rw [if_pos h, if_pos hg]

theorem read32_mem1_out (m : Memory) (address : Nat) (h : inMem1Window address)
    (hg : ¬ (address &&& (MEM1_SIZE - 1)) + 3 < MEM1_SIZE) :
    read32 m address = (m, 0, []) := by
  unfold read32; rw [if_pos h, if_neg hg]

theorem write32_mem1_in (m : Memory) (address v : Nat) (h : inMem1Window address)
    (hg : (address &&& (MEM1_SIZE - 1)) + 3 < MEM1_SIZE) :
    write32 m address v =
      ({ m with mem1 := storeBE m.mem1 (address &&& (MEM1_SIZE - 1)) v }, []) := by
  unfold write32; rw [if_pos h, if_pos hg]

theorem write32_mem1_out (m : Memory) (address v : Nat) (h : inMem1Window address)
    (hg : ¬ (address &&& (MEM1_SIZE - 1)) + 3 < MEM1_SIZE) :
    write32 m address v = (m, []) := by
  unfold write32; rw [if_pos h, if_neg hg]

theorem read32_mem2_in (m : Memory) (address : Nat) (h1 : ¬ inMem1Window address)
    (h : inMem2Window address)
    (hg : (address &&& (MEM2_SIZE - 1)) + 3 < MEM2_SIZE) :
    read32 m address = (m, loadBE m.mem2 (address &&& (MEM2_SIZE - 1)), []) := by
  unfold read32; rw [if_neg h1, if_pos h, if_pos hg]

theorem read32_mem2_out (m : Memory) (address : Nat) (h1 : ¬ inMem1Window address)
    (h : inMem2Window address)
    (hg : ¬ (address &&& (MEM2_SIZE - 1)) + 3 < MEM2_SIZE) :
    read32 m address = (m, 0, []) := by
  unfold read32; rw [if_neg h1, if_pos h, if_neg hg]

theorem write32_mem2_in (m : Memory) (address v : Nat)
    (h1 : ¬ inMem1Window address) (h : inMem2Window address)
    (hg : (address &&& (MEM2_SIZE - 1)) + 3 < MEM2_SIZE) :
    write32 m address v =
      ({ m with mem2 := storeBE m.mem2 (address &&& (MEM2_SIZE - 1)) v }, []) := by
  unfold write32; rw [if_neg h1, if_pos h, if_pos hg]

theorem write32_mem2_out (m : Memory) (address v : Nat)
    (h1 : ¬ inMem1Window address) (h : inMem2Window address)
    (hg : ¬ (address &&& (MEM2_SIZE - 1)) + 3 < MEM2_SIZE) :
    write32 m address v = (m, []) := by
  unfold write32; rw [if_neg h1, if_pos h, if_neg hg]

theorem not_inMem1Window_reg (address : Nat) (h : address < 0x0E000000) :
    ¬ inMem1Window address := by
  unfold inMem1Window; omega

theorem not_inMem2Window_reg (address : Nat) (h : address < 0x0E000000) :
    ¬ inMem2Window address := by
  unfold inMem2Window; omega

end FlamesEmu

namespace FlamesEmu

theorem read32_reg_bg (m : Memory) :
    read32 m REG_VIDEO_BG_COLOR = (m, m.videoBgColor, []) := by
  unfold read32
  rw [if_neg (not_inMem1Window_reg _ (by decide)),
    if_neg (not_inMem2Window_reg _ (by decide)), if_pos rfl]

theorem read32_reg_input (m : Memory) :
    read32 m REG_INPUT_STATE =
      (m, m.input.getD 0,
        if m.input.isSome then [ExtCall.getButtonState] else []) := by
  unfold read32
  rw [if_neg (not_inMem1Window_reg _ (by decide)),
    if_neg (not_inMem2Window_reg _ (by decide)), if_neg (by decide), if_pos rfl]
  rcases hm : m.input with _ | b <;> rfl

theorem read32_reg_audio (m : Memory) :
    read32 m REG_AUDIO_FREQ = (m, m.audioFreqValue, []) := by
  unfold read32
  rw [if_neg (not_inMem1Window_reg _ (by decide)),
    if_neg (not_inMem2Window_reg _ (by decide)), if_neg (by decide),
    if_neg (by decide), if_pos rfl]

theorem write32_reg_bg (m : Memory) (v : Nat) :
    write32 m REG_VIDEO_BG_COLOR v =
      ({ m with videoBgColor := v },
        if m.video then [ExtCall.setBackgroundColor v] else []) := by
  unfold write32
  rw [if_neg (not_inMem1Window_reg _ (by decide)),
    if_neg (not_inMem2Window_reg _ (by decide)), if_pos rfl]

theorem write32_reg_input (m : Memory) (v : Nat) :
    write32 m REG_INPUT_STATE v = (m, []) := by
  unfold write32
  rw [if_neg (not_inMem1Window_reg _ (by decide)),
    if_neg (not_inMem2Window_reg _ (by decide)), if_neg (by decide), if_pos rfl]

/-- C5: writing any value to the input-state register changes no stored
state and invokes no peripheral hook, and a subsequent read of that
register returns the connected input peripheral's reported button state
(`0` when no input peripheral is connected), unaffected by the write. -/
theorem input_reg_write_ignored (m : Memory) (v : Nat) :
    write32 m REG_INPUT_STATE v = (m, []) ∧
    (read32 (write32 m REG_INPUT_STATE v).1 REG_INPUT_STATE).2.1 =
      m.input.getD 0 := by
  have hw := write32_reg_input m v
  refine ⟨hw, ?_⟩
  rw [hw, read32_reg_input]

/-- C6: writing `v` to the background-color register stores `v` in the
register, makes exactly one `setBackgroundColor v` hook call exactly when a
video peripheral is connected, and a subsequent read of the register
returns `v` even with no video peripheral connected. -/
theorem bg_reg_write_stores_and_hooks (m : Memory) (v : Nat) :
    (write32 m REG_VIDEO_BG_COLOR v).1 = { m with videoBgColor := v } ∧
    (write32 m REG_VIDEO_BG_COLOR v).2 =
      (if m.video then [ExtCall.setBackgroundColor v] else []) ∧
    (read32 (write32 m REG_VIDEO_BG_COLOR v).1 REG_VIDEO_BG_COLOR).2.1 = v := by
  have hw := write32_reg_bg m v
  refine ⟨by rw [hw], by rw [hw], ?_⟩
  rw [hw, read32_reg_bg]

/-- C7: an address in no RAM window and equal to no register address reads
as `0` and writes are complete no-ops: no RAM byte, no stored register,
and no peripheral hook call. -/
theorem unmapped_read_zero_write_noop (m : Memory) (address v : Nat)
    (h1 : ¬ inMem1Window address) (h2 : ¬ inMem2Window address)
    (h3 : address ≠ REG_VIDEO_BG_COLOR) (h4 : address ≠ REG_INPUT_STATE)
    (h5 : address ≠ REG_AUDIO_FREQ) :
    read32 m address = (m, 0, []) ∧ write32 m address v = (m, []) := by
  constructor
  · unfold read32
    rw [if_neg h1, if_neg h2, if_neg h3, if_neg h4, if_neg h5]
  · unfold write32
    rw [if_neg h1, if_neg h2, if_neg h3, if_neg h4, if_neg h5]

theorem unmapped_read_zero_write_noop_witness :
    read32 Memory.init 0 = (Memory.init, 0, []) ∧
    write32 Memory.init 0 0xDEADBEEF = (Memory.init, []) :=
  unmapped_read_zero_write_noop Memory.init 0 0xDEADBEEF (by decide) (by decide)
    (by decide) (by decide) (by decide)

/-- C9: `read32` never changes the state (RAM, stored registers, or
peripheral connections), and the only external call it can make is the
input peripheral's button-state query, made exactly when the address is
the input-state register and an input peripheral is connected. -/
theorem read32_no_side_effects (m : Memory) (address : Nat) :
    (read32 m address).1 = m ∧
    (read32 m address).2.2 =
      (if address = REG_INPUT_STATE ∧ m.input.isSome = true then
        [ExtCall.getButtonState]
      else []) := by
  constructor
  · unfold read32
    repeat' split
    all_goals rfl
  · unfold read32
    by_cases h1 : inMem1Window address
    · have hne : ¬ (address = REG_INPUT_STATE ∧ m.input.isSome = true) := by
        rintro ⟨rfl, -⟩; exact absurd h1 (by decide)
      rw [if_pos h1, if_neg hne]
      split <;> rfl
    · by_cases h2 : inMem2Window address
      · have hne : ¬ (address = REG_INPUT_STATE ∧ m.input.isSome = true) := by
          rintro ⟨rfl, -⟩; exact absurd h2 (by decide)
        rw [if_neg h1, if_pos h2, if_neg hne]
        split <;> rfl
      · rw [if_neg h1, if_neg h2]
        by_cases h3 : address = REG_VIDEO_BG_COLOR
        · have hne : ¬ (address = REG_INPUT_STATE ∧ m.input.isSome = true) := by
            rintro ⟨rfl, -⟩; exact absurd h3 (by decide)
          rw [if_pos h3, if_neg hne]
        · rw [if_neg h3]
          by_cases h4 : address = REG_INPUT_STATE
          · subst h4
            rw [if_pos rfl]
            rcases hm : m.input with _ | b
            · rw [if_neg (show ¬ (REG_INPUT_STATE = REG_INPUT_STATE ∧
                (none : Option Nat).isSome = true) by simp)]
            · rw [if_pos (show REG_INPUT_STATE = REG_INPUT_STATE ∧
                (some b).isSome = true by simp)]
          · rw [if_neg h4,
              if_neg (show ¬ (address = REG_INPUT_STATE ∧ m.input.isSome = true)
                from fun hc => h4 hc.1)]
            by_cases h5 : address = REG_AUDIO_FREQ
            · rw [if_pos h5]
            · rw [if_neg h5]

end FlamesEmu

namespace FlamesEmu

/-- C1: for any 4-aligned offset inside a RAM region and any 32-bit value,
a `write32` through either window of that region followed by a `read32` at
the same address returns exactly the written value: the big-endian byte
split of `write32` and the big-endian assembly of `read32` are mutually
inverse. -/
theorem write32_read32_roundtrip (m : Memory) (base o v : Nat)
    (hwin : ((base = 0x80000000 ∨ base = 0xC0000000) ∧ o < MEM1_SIZE) ∨
      ((base = 0x90000000 ∨ base = 0xD0000000) ∧ o < MEM2_SIZE))
    (halign : o % 4 = 0) (hv : v < 2 ^ 32) :
    (read32 (write32 m (base + o) v).1 (base + o)).2.1 = v := by
  rcases hwin with ⟨hb, ho⟩ | ⟨hb, ho⟩
  · have hw : inMem1Window (base + o) := by
      unfold inMem1Window MEM1_SIZE
      unfold MEM1_SIZE at ho
      rcases hb with rfl | rfl <;> omega
    have hg : ((base + o) &&& (MEM1_SIZE - 1)) + 3 < MEM1_SIZE := by
      rw [and_mask1]
      unfold MEM1_SIZE at ho ⊢
      rcases hb with rfl | rfl <;> omega
    rw [write32_mem1_in m _ v hw hg, read32_mem1_in _ _ hw hg]
    exact loadBE_storeBE m.mem1 _ v hv
  · have hw1 : ¬ inMem1Window (base + o) := by
      unfold inMem1Window MEM1_SIZE
      unfold MEM2_SIZE at ho
      rcases hb with rfl | rfl <;> omega
    have hw : inMem2Window (base + o) := by
      unfold inMem2Window MEM2_SIZE
      unfold MEM2_SIZE at ho
      rcases hb with rfl | rfl <;> omega
    have hg : ((base + o) &&& (MEM2_SIZE - 1)) + 3 < MEM2_SIZE := by
      rw [and_mask2]
      unfold MEM2_SIZE at ho ⊢
      rcases hb with rfl | rfl <;> omega
    rw [write32_mem2_in m _ v hw1 hw hg, read32_mem2_in _ _ hw1 hw hg]
    exact loadBE_storeBE m.mem2 _ v hv

theorem write32_read32_roundtrip_witness :
    (read32 (write32 Memory.init (0x80000000 + 4) 0xDEADBEEF).1
      (0x80000000 + 4)).2.1 = 0xDEADBEEF :=
  write32_read32_roundtrip Memory.init 0x80000000 4 0xDEADBEEF
    (Or.inl ⟨Or.inl rfl, by decide⟩) (by decide) (by decide)

/-- C2: in any state (hence after any sequence of writes through either
alias), reading offset `o` through a region's primary window returns the
same result as reading it through the alias window, for every in-region
offset; both windows mask the address to the same offset into the same
backing array. -/
theorem alias_windows_read_equal (m : Memory) (o : Nat) :
    (o < MEM1_SIZE →
      read32 m (0x80000000 + o) = read32 m (0xC0000000 + o)) ∧
    (o < MEM2_SIZE →
      read32 m (0x90000000 + o) = read32 m (0xD0000000 + o)) := by
  constructor
  · intro ho
    have ho' : o < MEM1_SIZE := ho
    unfold MEM1_SIZE at ho'
    have e : (0x80000000 + o) &&& (MEM1_SIZE - 1) =
        (0xC0000000 + o) &&& (MEM1_SIZE - 1) := by
      rw [and_mask1, and_mask1]; omega
    have h1 : inMem1Window (0x80000000 + o) := by
      unfold inMem1Window MEM1_SIZE; omega
    have h2 : inMem1Window (0xC0000000 + o) := by
      unfold inMem1Window MEM1_SIZE; omega
    by_cases hg : ((0x80000000 + o) &&& (MEM1_SIZE - 1)) + 3 < MEM1_SIZE
    · rw [read32_mem1_in _ _ h1 hg, read32_mem1_in _ _ h2 (by rw [← e]; exact hg), e]
    · rw [read32_mem1_out _ _ h1 hg, read32_mem1_out _ _ h2 (by rw [← e]; exact hg)]
  · intro ho
    have ho' : o < MEM2_SIZE := ho
    unfold MEM2_SIZE at ho'
    have e : (0x90000000 + o) &&& (MEM2_SIZE - 1) =
        (0xD0000000 + o) &&& (MEM2_SIZE - 1) := by
      rw [and_mask2, and_mask2]; omega
    have h1a : ¬ inMem1Window (0x90000000 + o) := by
      unfold inMem1Window MEM1_SIZE; omega
    have h2a : ¬ inMem1Window (0xD0000000 + o) := by
      unfold inMem1Window MEM1_SIZE; omega
    have h1 : inMem2Window (0x90000000 + o) := by
      unfold inMem2Window MEM2_SIZE; omega
    have h2 : inMem2Window (0xD0000000 + o) := by
      unfold inMem2Window MEM2_SIZE; omega
    by_cases hg : ((0x90000000 + o) &&& (MEM2_SIZE - 1)) + 3 < MEM2_SIZE
    · rw [read32_mem2_in _ _ h1a h1 hg,
        read32_mem2_in _ _ h2a h2 (by rw [← e]; exact hg), e]
    · rw [read32_mem2_out _ _ h1a h1 hg,
        read32_mem2_out _ _ h2a h2 (by rw [← e]; exact hg)]

theorem alias_windows_read_equal_witness :
    read32 Memory.init (0x80000000 + 8) = read32 Memory.init (0xC0000000 + 8) ∧
    read32 Memory.init (0x90000000 + 8) = read32 Memory.init (0xD0000000 + 8) :=
  ⟨(alias_windows_read_equal Memory.init 8).1 (by decide),
   (alias_windows_read_equal Memory.init 8).2 (by decide)⟩

/-- C4: at a RAM-window address whose masked offset makes the 4-byte span
cross the region's end, `read32` returns `0` and `write32` is a complete
no-op: no RAM byte, no stored register, and no peripheral hook call. -/
theorem oob_span_read_zero_write_noop (m : Memory) (address v : Nat)
    (h : (inMem1Window address ∧
        ¬ ((address &&& (MEM1_SIZE - 1)) + 3 < MEM1_SIZE)) ∨
      (inMem2Window address ∧
        ¬ ((address &&& (MEM2_SIZE - 1)) + 3 < MEM2_SIZE))) :
    read32 m address = (m, 0, []) ∧ write32 m address v = (m, []) := by
  rcases h with ⟨hw, hg⟩ | ⟨hw, hg⟩
  · exact ⟨read32_mem1_out m address hw hg, write32_mem1_out m address v hw hg⟩
  · have h1 : ¬ inMem1Window address := by
      unfold inMem2Window MEM2_SIZE at hw
      unfold inMem1Window MEM1_SIZE
      omega
    exact ⟨read32_mem2_out m address h1 hw hg,
      write32_mem2_out m address v h1 hw hg⟩

theorem oob_span_read_zero_write_noop_witness :
    (read32 Memory.init (0x80000000 + MEM1_SIZE - 1) = (Memory.init, 0, []) ∧
      write32 Memory.init (0x80000000 + MEM1_SIZE - 1) 0xDEADBEEF =
        (Memory.init, [])) ∧
    (read32 Memory.init (0x90000000 + MEM2_SIZE - 1) = (Memory.init, 0, []) ∧
      write32 Memory.init (0x90000000 + MEM2_SIZE - 1) 0xDEADBEEF =
        (Memory.init, [])) :=
  ⟨oob_span_read_zero_write_noop Memory.init _ 0xDEADBEEF
      (Or.inl ⟨by decide, by decide⟩),
    oob_span_read_zero_write_noop Memory.init _ 0xDEADBEEF
      (Or.inr ⟨by decide, by decide⟩)⟩

end FlamesEmu

namespace FlamesEmu

/-- C3: an in-bounds RAM `write32` stores the value's bytes
most-significant-first: the byte at the masked offset holds bits 31-24,
the next holds bits 23-16, then bits 15-8, then bits 7-0 (so writing
`0xDEADBEEF` at offset 0 leaves bytes `0xDE 0xAD 0xBE 0xEF`). -/
theorem write32_stores_big_endian (m : Memory) (address v : Nat) :
    (inMem1Window address → ((address &&& (MEM1_SIZE - 1)) + 3 < MEM1_SIZE) →
      ((write32 m address v).1.mem1 (address &&& (MEM1_SIZE - 1)) =
          (v >>> 24) &&& 0xFF ∧
        (write32 m address v).1.mem1 ((address &&& (MEM1_SIZE - 1)) + 1) =
          (v >>> 16) &&& 0xFF ∧
        (write32 m address v).1.mem1 ((address &&& (MEM1_SIZE - 1)) + 2) =
          (v >>> 8) &&& 0xFF ∧
        (write32 m address v).1.mem1 ((address &&& (MEM1_SIZE - 1)) + 3) =
          v &&& 0xFF)) ∧
    (inMem2Window address → ((address &&& (MEM2_SIZE - 1)) + 3 < MEM2_SIZE) →
      ((write32 m address v).1.mem2 (address &&& (MEM2_SIZE - 1)) =
          (v >>> 24) &&& 0xFF ∧
        (write32 m address v).1.mem2 ((address &&& (MEM2_SIZE - 1)) + 1) =
          (v >>> 16) &&& 0xFF ∧
        (write32 m address v).1.mem2 ((address &&& (MEM2_SIZE - 1)) + 2) =
          (v >>> 8) &&& 0xFF ∧
        (write32 m address v).1.mem2 ((address &&& (MEM2_SIZE - 1)) + 3) =
          v &&& 0xFF)) := by
  constructor
  · intro hw hg
    rw [write32_mem1_in m address v hw hg]
    exact ⟨storeBE_at0 m.mem1 _ v, storeBE_at1 m.mem1 _ v,
      storeBE_at2 m.mem1 _ v, storeBE_at3 m.mem1 _ v⟩
  · intro hw hg
    have h1 : ¬ inMem1Window address := by
      unfold inMem2Window MEM2_SIZE at hw
      unfold inMem1Window MEM1_SIZE
      omega
    rw [write32_mem2_in m address v h1 hw hg]
    exact ⟨storeBE_at0 m.mem2 _ v, storeBE_at1 m.mem2 _ v,
      storeBE_at2 m.mem2 _ v, storeBE_at3 m.mem2 _ v⟩

theorem write32_stores_big_endian_witness :
    ((write32 Memory.init 0x80000000 0xDEADBEEF).1.mem1
        (0x80000000 &&& (MEM1_SIZE - 1)) = (0xDEADBEEF >>> 24) &&& 0xFF ∧
      (write32 Memory.init 0x80000000 0xDEADBEEF).1.mem1
        ((0x80000000 &&& (MEM1_SIZE - 1)) + 1) = (0xDEADBEEF >>> 16) &&& 0xFF ∧
      (write32 Memory.init 0x80000000 0xDEADBEEF).1.mem1
        ((0x80000000 &&& (MEM1_SIZE - 1)) + 2) = (0xDEADBEEF >>> 8) &&& 0xFF ∧
      (write32 Memory.init 0x80000000 0xDEADBEEF).1.mem1
        ((0x80000000 &&& (MEM1_SIZE - 1)) + 3) = 0xDEADBEEF &&& 0xFF) ∧
    ((0x80000000 : Nat) &&& (MEM1_SIZE - 1) = 0 ∧
      (0xDEADBEEF : Nat) >>> 24 &&& 0xFF = 0xDE ∧
      (0xDEADBEEF : Nat) >>> 16 &&& 0xFF = 0xAD ∧
      (0xDEADBEEF : Nat) >>> 8 &&& 0xFF = 0xBE ∧
      (0xDEADBEEF : Nat) &&& 0xFF = 0xEF) :=
  ⟨(write32_stores_big_endian Memory.init 0x80000000 0xDEADBEEF).1
      (by decide) (by decide),
    by decide⟩

/-- C8 counterexample: `MEM1_SIZE` (24 MiB) equals `3 * 2 ^ 23`, strictly
between the consecutive powers `2 ^ 24` and `2 ^ 25`, hence not a power of
two, and the mask `MEM1_SIZE - 1` is
not a contiguous low-bit field: bit 23 is clear while bit 24 is set, so
the in-range offset `0x00800000` masks to `0`. -/
theorem mem1_size_not_power_of_two :
    MEM1_SIZE = 3 * 2 ^ 23 ∧
    2 ^ 24 < MEM1_SIZE ∧ MEM1_SIZE < 2 ^ 25 ∧
    (MEM1_SIZE - 1).testBit 23 = false ∧ (MEM1_SIZE - 1).testBit 24 = true ∧
    (0x00800000 : Nat) < MEM1_SIZE ∧
    (0x00800000 : Nat) &&& (MEM1_SIZE - 1) = 0 := by
  decide

/-- C8 amended: `MEM2_SIZE` (64 MiB) is the power of two `2 ^ 26`, so its
offset mask selects the low 26 address bits; `MEM1_SIZE` (24 MiB) is
strictly between `2 ^ 24` and `2 ^ 25`, hence not a power of two, and its
mask `MEM1_SIZE - 1` is not a contiguous low-bit field (bit 23 clear,
bit 24 set). -/
theorem region_size_power_of_two_status :
    MEM2_SIZE = 2 ^ 26 ∧
    (∀ a : Nat, a &&& (MEM2_SIZE - 1) = a % 2 ^ 26) ∧
    2 ^ 24 < MEM1_SIZE ∧ MEM1_SIZE < 2 ^ 25 ∧
    (MEM1_SIZE - 1).testBit 23 = false ∧ (MEM1_SIZE - 1).testBit 24 = true := by
  refine ⟨by decide, fun a => ?_, by decide, by decide, by decide, by decide⟩
  rw [and_mask2]
  norm_num

end FlamesEmu

namespace FlamesEmu

/-- C10 counterexample: the MEM1 backing byte at offset `0x00800000` (the
start of the claimed never-touched 8 MiB) is written by
`write32 0x807FFFFD` — the masked offset is `0x007FFFFD`, the bound check
`0x007FFFFD + 3 < MEM1_SIZE` passes, and the fourth stored byte lands at
offset `0x00800000`, changing it from `0` to `0xEF`. -/
theorem mem1_hole_byte_written :
    Memory.init.mem1 0x00800000 = 0 ∧
    inMem1Window 0x807FFFFD ∧
    (0x807FFFFD : Nat) &&& (MEM1_SIZE - 1) = 0x007FFFFD ∧
    (write32 Memory.init 0x807FFFFD 0xDEADBEEF).1.mem1 0x00800000 = 0xEF := by
  refine ⟨rfl, by decide, by decide, ?_⟩
  decide

/-- C10 amended: every address in `[0x80800000, 0x81000000)` or
`[0xC0800000, 0xC1000000)` behaves under `read32`/`write32` exactly like
the address `0x00800000` lower (mask bit 23 is clear), and the MEM1
backing bytes at offsets `[0x00800003, 0x01000000)` are never read or
written through `read32`/`write32` at any address; the three bytes
`0x00800000..0x00800002` are however reachable by 4-byte accesses whose
masked offset lies just below `0x00800000`. -/
theorem mem1_upper_window_aliases (m : Memory) (a v i : Nat) (f : Nat → Nat) :
    ((0x80800000 ≤ a ∧ a < 0x81000000) ∨ (0xC0800000 ≤ a ∧ a < 0xC1000000) →
      read32 m a = read32 m (a - 0x00800000) ∧
      write32 m a v = write32 m (a - 0x00800000) v) ∧
    (0x00800003 ≤ i ∧ i < 0x01000000 →
      (write32 m a v).1.mem1 i = m.mem1 i) ∧
    ((∀ j, j < 0x00800003 ∨ 0x01000000 ≤ j → f j = m.mem1 j) →
      (read32 { m with mem1 := f } a).2.1 = (read32 m a).2.1) := by
  refine ⟨?_, ?_, ?_⟩
  · intro ha
    have e : a &&& (MEM1_SIZE - 1) = (a - 0x00800000) &&& (MEM1_SIZE - 1) := by
      rw [and_mask1, and_mask1]; omega
    have h1 : inMem1Window a := by
      unfold inMem1Window MEM1_SIZE; omega
    have h2 : inMem1Window (a - 0x00800000) := by
      unfold inMem1Window MEM1_SIZE; omega
    constructor
    · by_cases hg : (a &&& (MEM1_SIZE - 1)) + 3 < MEM1_SIZE
      · rw [read32_mem1_in _ _ h1 hg,
          read32_mem1_in _ _ h2 (by rw [← e]; exact hg), e]
      · rw [read32_mem1_out _ _ h1 hg,
          read32_mem1_out _ _ h2 (by rw [← e]; exact hg)]
    · by_cases hg : (a &&& (MEM1_SIZE - 1)) + 3 < MEM1_SIZE
      · rw [write32_mem1_in _ _ _ h1 hg,
          write32_mem1_in _ _ _ h2 (by rw [← e]; exact hg), e]
      · rw [write32_mem1_out _ _ _ h1 hg,
          write32_mem1_out _ _ _ h2 (by rw [← e]; exact hg)]
  · intro hi
    by_cases h1 : inMem1Window a
    · by_cases hg : (a &&& (MEM1_SIZE - 1)) + 3 < MEM1_SIZE
      · rw [write32_mem1_in _ _ _ h1 hg]
        apply storeBE_other
        have hmask := and_mask1 a
        unfold MEM1_SIZE at hg
        omega
      · rw [write32_mem1_out _ _ _ h1 hg]
    · by_cases h2 : inMem2Window a
      · by_cases hg : (a &&& (MEM2_SIZE - 1)) + 3 < MEM2_SIZE
        · rw [write32_mem2_in _ _ _ h1 h2 hg]
        · rw [write32_mem2_out _ _ _ h1 h2 hg]
      · unfold write32
        rw [if_neg h1, if_neg h2]
        by_cases h3 : a = REG_VIDEO_BG_COLOR
        · rw [if_pos h3]
        · rw [if_neg h3]
          by_cases h4 : a = REG_INPUT_STATE
          · rw [if_pos h4]
          · rw [if_neg h4]
            by_cases h5 : a = REG_AUDIO_FREQ
            · rw [if_pos h5]
            · rw [if_neg h5]
  · intro hf
    by_cases h1 : inMem1Window a
    · by_cases hg : (a &&& (MEM1_SIZE - 1)) + 3 < MEM1_SIZE
      · rw [read32_mem1_in _ _ h1 hg, read32_mem1_in _ _ h1 hg]
        show loadBE f (a &&& (MEM1_SIZE - 1)) =
          loadBE m.mem1 (a &&& (MEM1_SIZE - 1))
        have hmask := and_mask1 a
        unfold MEM1_SIZE at hg
        unfold loadBE
        rw [hf _ (by omega), hf _ (by omega), hf _ (by omega), hf _ (by omega)]
      · rw [read32_mem1_out _ _ h1 hg, read32_mem1_out _ _ h1 hg]
    · by_cases h2 : inMem2Window a
      · by_cases hg : (a &&& (MEM2_SIZE - 1)) + 3 < MEM2_SIZE
        · rw [read32_mem2_in _ _ h1 h2 hg, read32_mem2_in _ _ h1 h2 hg]
        · rw [read32_mem2_out _ _ h1 h2 hg, read32_mem2_out _ _ h1 h2 hg]
      · unfold read32
        rw [if_neg h1, if_neg h1, if_neg h2, if_neg h2]
        by_cases h3 : a = REG_VIDEO_BG_COLOR
        · rw [if_pos h3, if_pos h3]
        · rw [if_neg h3, if_neg h3]
          by_cases h4 : a = REG_INPUT_STATE
          · rw [if_pos h4, if_pos h4]
            rcases hm : m.input with _ | b <;> rfl
          · rw [if_neg h4, if_neg h4]
            by_cases h5 : a = REG_AUDIO_FREQ
            · rw [if_pos h5, if_pos h5]
            · rw [if_neg h5, if_neg h5]

theorem mem1_upper_window_aliases_witness :
    (read32 Memory.init 0x80800000 =
        read32 Memory.init (0x80800000 - 0x00800000) ∧
      write32 Memory.init 0x80800000 0xDEADBEEF =
        write32 Memory.init (0x80800000 - 0x00800000) 0xDEADBEEF) ∧
    (write32 Memory.init 0x80800000 0xDEADBEEF).1.mem1 0x00900000 =
      Memory.init.mem1 0x00900000 ∧
    (read32 { Memory.init with mem1 := Memory.init.mem1 } 0x80800000).2.1 =
      (read32 Memory.init 0x80800000).2.1 := by
  obtain ⟨h1, h2, h3⟩ := mem1_upper_window_aliases Memory.init 0x80800000
    0xDEADBEEF 0x00900000 Memory.init.mem1
  exact ⟨h1 (by decide), h2 (by decide), h3 (fun j hj => rfl)⟩

end FlamesEmu
